/-
Verification of the slack_to_vcf pipeline (src/make_vcards.py) against its
natural-language specification.

The Python source is shallowly embedded: each Python function the claims
mention is translated into a Lean definition of the same name.  Python
`None`/`NaN` values are `Option.none`; raised exceptions are modelled as
explicit error results.  The pandas pipeline in `df_user_list` is modelled
row-wise over a list of raw member records: a json key that is absent is
`none`; a DataFrame column exists exactly when at least one record carries
the key (this is what decides whether `df[cols]` succeeds or raises
`KeyError`).
-/
import Mathlib

set_option maxHeartbeats 1000000
set_option maxRecDepth 10000

/-- Character-list prefix test on strings: `startsWithS pre s` holds when the
text of `s` begins with the text of `pre`.  Used to talk about "the line
beginning with ...". -/
def startsWithS (pre s : String) : Bool :=
  pre.data.isPrefixOf s.data

/-- The Python substring containment `needle in hay`, on the character lists. -/
def hasSubstr (needle : List Char) : List Char → Bool
  | [] => needle.isPrefixOf []
  | a :: t => needle.isPrefixOf (a :: t) || hasSubstr needle t

/-- Python `needle in hay` on strings. -/
def pyIn (needle hay : String) : Bool :=
  hasSubstr needle.data hay.data

/-- The ASCII whitespace characters the Python `str.strip` removes. -/
def pyWhitespace (c : Char) : Bool :=
  c = ' ' || c = '\t' || c = '\n' || c = '\r' || c = '\x0b' || c = '\x0c'

/-- The Python `str.strip()`: leading and trailing whitespace removed. -/
def pyStrip (s : String) : String :=
  String.mk
    (((s.data.dropWhile pyWhitespace).reverse.dropWhile pyWhitespace).reverse)

/-- The cleanup applied to one textual cell by `df_user_list` lines 78-79:
`x.str.strip()` followed by the empty-string-to-NaN replacement of line 79.
An absent value (NaN)
stays absent; a present string is stripped, and becomes absent when the
strip leaves the empty string. -/
def cleanStr (v : Option String) : Option String :=
  match v with
  | none => none
  | some s => if pyStrip s = "" then none else some (pyStrip s)

/-- The nested `profile` sub-object of a raw Slack member record.  A field is
`none` when the json key is absent from the record. -/
structure RawProfile where
  first_name : Option String
  last_name : Option String
  real_name_normalized : Option String
  email : Option String
  skype : Option String
  phone : Option String
  title : Option String
  image_1024 : Option String
  image_512 : Option String
  image_192 : Option String
  is_custom_image : Option Bool
  display_name_normalized : Option String
deriving DecidableEq

/-- One raw member record of the `members` array of the users.list response.
`is_bot` and `name` are the two keys `is_bot` (line 27) reads unconditionally;
the remaining keys are optional. -/
structure RawMember where
  is_bot : Bool
  name : String
  profile : RawProfile
  tz : Option String
  id : Option String
  deleted : Option Bool
  updated : Option Nat
  bot_id : Option String
deriving DecidableEq

/-- Embedding of `is_bot` (lines 21-27):
the member is a bot when its bot flag is set or its name equals the
reserved identifier slackbot. -/
def is_bot (m : RawMember) : Bool :=
  m.is_bot || m.name == "slackbot"

/-- Embedding of line 57 of `df_user_list`:
`[m for m in members if ignore_bots and not is_bot(m)]`. -/
def filtered_members (members : List RawMember) (ignore_bots : Bool) :
    List RawMember :=
  members.filter (fun m => ignore_bots && !(is_bot m))

/-- One row of the DataFrame after column selection (`df[cols]`, line 75) and
the cleanup of lines 78-79.  `bot_id` is selected only when
`ignore_bots=False` (lines 73-74). -/
structure Row where
  first_name : Option String
  last_name : Option String
  real_name_normalized : Option String
  email : Option String
  skype : Option String
  phone : Option String
  title : Option String
  image_1024 : Option String
  image_512 : Option String
  image_192 : Option String
  is_custom_image : Option Bool
  display_name_normalized : Option String
  tz : Option String
  id : Option String
  deleted : Option Bool
  updated : Option Nat
  bot_id : Option String
deriving DecidableEq

/-- The row a raw member yields after `json_normalize`, the column rename of
lines 61-62 (`profile.x` becomes `x`), the selection `df[cols]`, and the
textual cleanup of lines 78-79.  Boolean and numeric columns have no `.str`
accessor, so they are not stripped. -/
def makeRow (ignore_bots : Bool) (m : RawMember) : Row :=
  { first_name := cleanStr m.profile.first_name
    last_name := cleanStr m.profile.last_name
    real_name_normalized := cleanStr m.profile.real_name_normalized
    email := cleanStr m.profile.email
    skype := cleanStr m.profile.skype
    phone := cleanStr m.profile.phone
    title := cleanStr m.profile.title
    image_1024 := cleanStr m.profile.image_1024
    image_512 := cleanStr m.profile.image_512
    image_192 := cleanStr m.profile.image_192
    is_custom_image := m.profile.is_custom_image
    display_name_normalized := cleanStr m.profile.display_name_normalized
    tz := cleanStr m.tz
    id := cleanStr m.id
    deleted := m.deleted
    updated := m.updated
    bot_id := if ignore_bots then none else cleanStr m.bot_id }

/-- `json_normalize` creates a column exactly when at least one record carries
the corresponding key; `df[cols]` (line 75) raises `KeyError` when any
selected column does not exist.  This predicate states that every selected
column exists for the given (already bot-filtered) member list. -/
def colsPresent (fm : List RawMember) (ignore_bots : Bool) : Bool :=
  fm.any (fun m => m.profile.first_name.isSome) &&
  fm.any (fun m => m.profile.last_name.isSome) &&
  fm.any (fun m => m.profile.real_name_normalized.isSome) &&
  fm.any (fun m => m.profile.email.isSome) &&
  fm.any (fun m => m.profile.skype.isSome) &&
  fm.any (fun m => m.profile.phone.isSome) &&
  fm.any (fun m => m.profile.title.isSome) &&
  fm.any (fun m => m.profile.image_1024.isSome) &&
  fm.any (fun m => m.profile.image_512.isSome) &&
  fm.any (fun m => m.profile.image_192.isSome) &&
  fm.any (fun m => m.profile.is_custom_image.isSome) &&
  fm.any (fun m => m.profile.display_name_normalized.isSome) &&
  fm.any (fun m => m.tz.isSome) &&
  fm.any (fun m => m.id.isSome) &&
  fm.any (fun m => m.deleted.isSome) &&
  fm.any (fun m => m.updated.isSome) &&
  (ignore_bots || fm.any (fun m => m.bot_id.isSome))

/-- Embedding of `df_user_list` (lines 47-89) on the `make_useful=True` path
(the path the main program uses).  Steps, in source order: the bot filter of
line 57; `json_normalize` plus the rename of lines 61-62; the column
selection `df[cols]` of lines 65-75, which raises `KeyError` (modelled as
`none`) when a selected column exists in no record; the strip/empty-to-NaN
cleanup of lines 78-79; the opt-out filter `df.title != ignore_key` of
line 82 (a NaN title is unequal to the key, hence kept); the completeness
filter `pd.notnull(df.real_name_normalized)` of line 85; and the
order-preserving `reset_index` of line 87. -/
def df_user_list (members : List RawMember) (ignore_key : String)
    (ignore_bots : Bool) : Option (List Row) :=
  let fm := filtered_members members ignore_bots
  if colsPresent fm ignore_bots then
    some (((fm.map (makeRow ignore_bots)).filter
        (fun r => r.title != some ignore_key)).filter
        (fun r => r.real_name_normalized.isSome))
  else none

/-- The default-avatar marker of `skip_avatar` (line 94). -/
def avatarMarker : String := "/a.slack-edge.com/df10d/img/avatars/ava_"

/-- Embedding of `skip_avatar` (lines 92-96). -/
def skip_avatar (url : String) : Bool :=
  if pyIn avatarMarker url then true else false

/-- Embedding of `url_to_data` (lines 99-111).  The HTTP layer is a parameter
`http` mapping a requested url to the pair of the final url after redirects
(`r.url`) and the response body bytes (`r.content`). -/
def url_to_data (http : String → String × List Nat) (url : String) :
    Option (List Nat) :=
  if skip_avatar url then none
  else
    let r := http url
    if skip_avatar r.1 then none else some r.2

/-- The base64 alphabet of RFC 4648, as used by the Python `base64.b64encode`. -/
def b64Alphabet : List Char :=
  [ 'A', 'B', 'C', 'D', 'E', 'F', 'G', 'H', 'I', 'J', 'K', 'L', 'M',
    'N', 'O', 'P', 'Q', 'R', 'S', 'T', 'U', 'V', 'W', 'X', 'Y', 'Z',
    'a', 'b', 'c', 'd', 'e', 'f', 'g', 'h', 'i', 'j', 'k', 'l', 'm',
    'n', 'o', 'p', 'q', 'r', 's', 't', 'u', 'v', 'w', 'x', 'y', 'z',
    '0', '1', '2', '3', '4', '5', '6', '7', '8', '9', '+', '/' ]

/-- Character of a 6-bit value in the base64 alphabet. -/
def b64Chr (n : Nat) : Char :=
  b64Alphabet.getD n 'A'

/-- 6-bit value of a base64 alphabet character (0 for a character outside the
alphabet, which never arises on encoder output). -/
def b64Val (c : Char) : Nat :=
  (b64Alphabet.indexOf c) % 64

/-- Embedding of the Python `base64.b64encode` on a list of byte values:
each 3-byte group becomes 4 alphabet characters; a trailing 2-byte group
becomes 3 characters plus one `=` pad; a trailing single byte becomes 2
characters plus two `=` pads. -/
def b64encode : List Nat → List Char
  | a :: b :: c :: rest =>
      b64Chr (a / 4) :: b64Chr ((a % 4) * 16 + b / 16) ::
      b64Chr ((b % 16) * 4 + c / 64) :: b64Chr (c % 64) :: b64encode rest
  | [a, b] =>
      [b64Chr (a / 4), b64Chr ((a % 4) * 16 + b / 16),
       b64Chr ((b % 16) * 4), '=']
  | [a] =>
      [b64Chr (a / 4), b64Chr ((a % 4) * 16), '=', '=']
  | [] => []

/-- Embedding of `data_to_b64` (lines 114-117): `base64.b64encode` of the
bytes, decoded back to a text string. -/
def data_to_b64 (data : List Nat) : String :=
  String.mk (b64encode data)

/-- Standard RFC 4648 base64 decoding (the inverse transformation named by
the round-trip property of the spec): every 4-character group yields 3 bytes,
except that a final group padded with `=` yields 1 byte (two pads) or 2
bytes (one pad). -/
def b64decode : List Char → List Nat
  | c1 :: c2 :: c3 :: c4 :: rest =>
      if c3 = '=' then
        [b64Val c1 * 4 + b64Val c2 / 16]
      else if c4 = '=' then
        [b64Val c1 * 4 + b64Val c2 / 16,
         (b64Val c2 % 16) * 16 + b64Val c3 / 4]
      else
        (b64Val c1 * 4 + b64Val c2 / 16) ::
        ((b64Val c2 % 16) * 16 + b64Val c3 / 4) ::
        ((b64Val c3 % 4) * 64 + b64Val c4) :: b64decode rest
  | _ => []

/-- Modelled from the spec: `img_to_b64`, the function `write_vcard` calls at
line 167, is not defined anywhere in the source file.  Per spec section 4.4
the avatar pipeline is `fetchAvatar` (here `url_to_data`) followed by
`encodeAvatar` (here `data_to_b64`); when the fetch yields absent, encoding
absent data fails (`base64.b64encode(None)` raises `TypeError`), modelled as
`none`. -/
def img_to_b64 (http : String → String × List Nat) (url : String) :
    Option String :=
  (url_to_data http url).map data_to_b64

/-- Index of the last occurrence of a character in a character list
(the Python `str.rfind`, with `none` for the -1 not-found result). -/
def rfindIdx (c : Char) : List Char → Option Nat
  | [] => none
  | a :: t =>
      match rfindIdx c t with
      | some i => some (i + 1)
      | none => if a = c then some 0 else none

/-- The index right after the last `/` (the start of the basename), 0 when
there is no separator: `sepIndex + 1` in `posixpath.splitext`. -/
def splitext_sep (l : List Char) : Nat :=
  match rfindIdx '/' l with
  | none => 0
  | some s => s + 1

/-- The body of `posixpath.splitext` once the last dot index `d` and the
basename start `s0` are known: the extension starts at the last dot,
provided that dot comes after the last separator (`s0 ≤ d`, i.e.
`dotIndex > sepIndex`) and at least one basename character before the dot is
not itself a dot (the skip-leading-dots while loop, so a name such as
`.bashrc` has no extension). -/
def splitext_ext_at (l : List Char) (d s0 : Nat) : String :=
  if s0 ≤ d then
    if ((l.drop s0).take (d - s0)).any (fun ch => ch != '.') then
      String.mk (l.drop d)
    else ""
  else ""

/-- Embedding of the extension component of `os.path.splitext` (posix
rules, as used at line 162); `""` when the path has no dot at all. -/
def splitext_ext (p : String) : String :=
  match rfindIdx '.' p.data with
  | none => ""
  | some d => splitext_ext_at p.data d (splitext_sep p.data)

/-- The Python `str.upper()` on ASCII text: uppercase every character. -/
def pyUpper (s : String) : String :=
  String.mk (s.data.map Char.toUpper)

/-- Embedding of lines 162-166 of `write_vcard`: the TYPE token of the PHOTO
line.  `.jpg` and `.jpeg` map to `JPEG`; any other extension is uppercased
as-is (`url_ext.upper()`), leading dot included. -/
def photo_ext (pic_url : String) : String :=
  let url_ext := splitext_ext pic_url
  if url_ext == ".jpeg" || url_ext == ".jpg" then "JPEG" else pyUpper url_ext

/-- One event of the body of `write_vcard`: a `f.write` call whose argument
is a Python `str`, or an exception raised while evaluating an argument. -/
inductive WStep where
  | wr (s : String)
  | raise (e : String)
deriving DecidableEq

/-- Embedding of the body of `write_vcard` (lines 135-170): the `f.write`
calls in source order, with their `str` arguments.  The FN and N lines are a
single write guarded by `first`, `last` and `full` all being non-null
(lines 138-139); the IMPP line is written in two pieces followed by the
X-SKYPE write (lines 147-154); the PHOTO write of line 161 precedes the
evaluation of `img_to_b64(pic_url)` at line 167, which raises when the
avatar fetch yields absent (and `img_to_b64` is in fact undefined in the
source, so reaching it raises `NameError`; either way an exception). -/
def write_vcard_steps (first last full email tel skype title pic_url :
    Option String) (http : String → String × List Nat) : List WStep :=
  [WStep.wr ("BEGIN:VCARD" ++ "\n" ++ "VERSION:3.0" ++ "\n")]
  ++ (match first, last, full with
      | some fi, some la, some fu =>
          [WStep.wr ("FN:" ++ fu ++ "\n" ++
            ("N:" ++ la ++ ";" ++ fi ++ ";;;" ++ "\n"))]
      | _, _, _ => [])
  ++ (match email with
      | some e =>
          [WStep.wr ("EMAIL;TYPE=INTERNET;TYPE=HOME:" ++ e ++ "\n")]
      | none => [])
  ++ (match tel with
      | some t => [WStep.wr ("TEL;PREF=1;TYPE=CELL:" ++ t ++ "\n")]
      | none => [])
  ++ (match skype with
      | some s =>
          [WStep.wr "IMPP;X-SERVICE-TYPE=Skype;type=HOME;",
           WStep.wr ("skype:" ++ s ++ "\n"),
           WStep.wr ("X-SKYPE:" ++ s ++ "\n")]
      | none => [])
  ++ (match title with
      | some t => [WStep.wr ("TITLE:" ++ t ++ "\n")]
      | none => [])
  ++ (match pic_url with
      | some u =>
          WStep.wr "PHOTO;ENCODING=b;TYPE=" ::
          (match img_to_b64 http u with
           | some b => [WStep.wr (photo_ext u ++ ":" ++ b ++ "\n")]
           | none => [WStep.raise "TypeError"])
      | none => [])
  ++ [WStep.wr ("END:VCARD" ++ "\n")]

/-- One transition of a file handle opened in binary mode (mode wb, line 135):
once an exception is pending no further write executes; a `str` argument to
a binary handle raises `TypeError`. -/
def binStep (st : List Nat × Option String) (step : WStep) :
    List Nat × Option String :=
  match st, step with
  | (buf, some e), _ => (buf, some e)
  | (buf, none), WStep.wr _ => (buf, some "TypeError")
  | (buf, none), WStep.raise e => (buf, some e)

/-- Running the writes of `write_vcard` against the binary-mode handle the source
actually opens: the final byte content of the file, and the pending
exception if one was raised. -/
def runBin (steps : List WStep) : List Nat × Option String :=
  steps.foldl binStep ([], none)

/-- One transition of a hypothetical text-mode handle: a `str` write appends
to the file text; an exception stops all further writes. -/
def textStep (st : String × Option String) (step : WStep) :
    String × Option String :=
  match st, step with
  | (buf, some e), _ => (buf, some e)
  | (buf, none), WStep.wr s => (buf ++ s, none)
  | (buf, none), WStep.raise e => (buf, some e)

/-- The card text the write sequence of `write_vcard` serializes (its writes run
against a text-mode handle), with the pending exception if one was raised. -/
def runText (steps : List WStep) : String × Option String :=
  steps.foldl textStep ("", none)

/-- Lines contributed by the FN/N write of lines 138-139. -/
def fn_lines (first last full : Option String) : List String :=
  match first, last, full with
  | some fi, some la, some fu =>
      ["FN:" ++ fu, "N:" ++ la ++ ";" ++ fi ++ ";;;"]
  | _, _, _ => []

/-- Line contributed by the EMAIL write of line 142. -/
def email_lines (email : Option String) : List String :=
  match email with
  | some e => ["EMAIL;TYPE=INTERNET;TYPE=HOME:" ++ e]
  | none => []

/-- Line contributed by the TEL write of line 145. -/
def tel_lines (tel : Option String) : List String :=
  match tel with
  | some t => ["TEL;PREF=1;TYPE=CELL:" ++ t]
  | none => []

/-- Lines contributed by the skype block of lines 147-154: the IMPP line
(written in two pieces) directly followed by the X-SKYPE line. -/
def skype_lines (skype : Option String) : List String :=
  match skype with
  | some s =>
      ["IMPP;X-SERVICE-TYPE=Skype;type=HOME;skype:" ++ s, "X-SKYPE:" ++ s]
  | none => []

/-- Line contributed by the TITLE write of line 157. -/
def title_lines (title : Option String) : List String :=
  match title with
  | some t => ["TITLE:" ++ t]
  | none => []

/-- Lines contributed by the PHOTO block (lines 159-168) and the final
END:VCARD write (line 170).  When the avatar pipeline yields no data the
serialization stops mid-line after the `PHOTO;ENCODING=b;TYPE=` piece, so the
trailing partial line is the last output and END:VCARD is never written. -/
def photo_end_lines (pic_url : Option String)
    (http : String → String × List Nat) : List String :=
  match pic_url with
  | none => ["END:VCARD"]
  | some u =>
      match img_to_b64 http u with
      | some b =>
          ["PHOTO;ENCODING=b;TYPE=" ++ photo_ext u ++ ":" ++ b, "END:VCARD"]
      | none => ["PHOTO;ENCODING=b;TYPE="]

/-- The lines of the card text `write_vcard` serializes, in output order
(the line decomposition of `(runText (write_vcard_steps ...)).1`). -/
def vcard_lines (first last full email tel skype title pic_url :
    Option String) (http : String → String × List Nat) : List String :=
  ["BEGIN:VCARD", "VERSION:3.0"]
  ++ fn_lines first last full
  ++ email_lines email
  ++ tel_lines tel
  ++ skype_lines skype
  ++ title_lines title
  ++ photo_end_lines pic_url http

/-- Zero-padding of a number to a width, as `strftime` does for date
components. -/
def padNum (width n : Nat) : String :=
  String.mk (List.replicate (width - (Nat.toDigits 10 n).length) '0')
    ++ String.mk (Nat.toDigits 10 n)

/-- `datetime.now(datetime.UTC).strftime("%Y-%m-%d")` (line 174), with the
current UTC date supplied as explicit year/month/day numbers. -/
def strftimeDate (y m d : Nat) : String :=
  padNum 4 y ++ "-" ++ padNum 2 m ++ "-" ++ padNum 2 d

/-- Embedding of `os.path.join` for two components (posix rules): an absolute
second component replaces the first; otherwise a `/` separator is inserted
unless the first component is empty or already ends in `/`. -/
def pyJoin (a b : String) : String :=
  if startsWithS "/" b then b
  else if a == "" || a.data.getLast? == some '/' then a ++ b
  else a ++ "/" ++ b

/-- Embedding of `_cachefile` (lines 173-177): the daily cache path
`<folder>/<YYYY-MM-DD>.json`.  A non-string folder argument falls back to
`"cache"` (modelled by `none`); the `os.makedirs` side effect creates the
folder but does not affect the returned path. -/
def cachefileName (cache_folder : Option String) (today : String) : String :=
  let folder := match cache_folder with | some s => s | none => "cache"
  pyJoin folder (today ++ ".json")

/-- Embedding of `cached_user_list` (lines 180-186).  The filesystem is a
parameter `fs` mapping a path to its text content when the file exists;
`loads` is `json.loads`.  When the daily cache file does not exist the
function returns `None`; otherwise it returns the parsed content.  The
definition takes no network parameter: the function performs no fetch. -/
def cached_user_list {J : Type} (fs : String → Option String)
    (loads : String → J) (cache_folder : Option String) (today : String) :
    Option J :=
  match fs (cachefileName cache_folder today) with
  | none => none
  | some content => some (loads content)

/-- A fully-populated profile used as concrete test data. -/
def aliceProfile : RawProfile :=
  { first_name := some "Alice"
    last_name := some "Smith"
    real_name_normalized := some "Alice Smith"
    email := some "alice@example.com"
    skype := some "alice.s"
    phone := some "555-0100"
    title := some "Engineer"
    image_1024 := some "https://files.example.com/alice.png"
    image_512 := some "https://files.example.com/alice-512.png"
    image_192 := some "https://files.example.com/alice-192.png"
    is_custom_image := some true
    display_name_normalized := some "alice" }

/-- A fully-populated non-bot member. -/
def alice : RawMember :=
  { is_bot := false
    name := "alice"
    profile := aliceProfile
    tz := some "America/New_York"
    id := some "U001"
    deleted := some false
    updated := some 1700000000
    bot_id := none }

/-- A member whose bot flag is set. -/
def robot : RawMember :=
  { is_bot := true
    name := "helper-bot"
    profile := aliceProfile
    tz := some "UTC"
    id := some "U002"
    deleted := some false
    updated := some 1700000000
    bot_id := some "B001" }

/-- A non-bot member whose optional profile keys email, skype, phone, title
and avatar urls are absent. -/
def bob : RawMember :=
  { is_bot := false
    name := "bob"
    profile :=
      { first_name := some "Bob"
        last_name := some "Jones"
        real_name_normalized := some "Bob Jones"
        email := none
        skype := none
        phone := none
        title := none
        image_1024 := none
        image_512 := none
        image_192 := none
        is_custom_image := some false
        display_name_normalized := some "bob" }
    tz := some "UTC"
    id := some "U003"
    deleted := some false
    updated := some 1700000001
    bot_id := none }

/-- Alice with only the optional email key absent. -/
def carol : RawMember :=
  { alice with
    name := "carol"
    id := some "U004"
    profile := { aliceProfile with email := none } }

/-- A stub HTTP layer: no redirect, empty body. -/
def httpStub : String → String × List Nat :=
  fun u => (u, [])

/-- A default Slack avatar url (contains the placeholder marker). -/
def defaultAvatarUrl : String :=
  "https://a.slack-edge.com/df10d/img/avatars/ava_0011-512.png"

theorem b64Val_b64Chr_fin : ∀ i : Fin 64, b64Val (b64Chr i.val) = i.val := by
  decide

theorem b64Chr_ne_pad_fin : ∀ i : Fin 64, b64Chr i.val ≠ '=' := by
  decide

theorem b64Val_b64Chr (n : Nat) (h : n < 64) : b64Val (b64Chr n) = n :=
  b64Val_b64Chr_fin ⟨n, h⟩

theorem b64Chr_ne_pad (n : Nat) (h : n < 64) : b64Chr n ≠ '=' :=
  b64Chr_ne_pad_fin ⟨n, h⟩

theorem b64_roundtrip (data : List Nat) (h : ∀ x ∈ data, x < 256) :
    b64decode (b64encode data) = data := by
  induction data using b64encode.induct with
  | case1 a b c rest ih =>
      have ha : a < 256 := h a (by simp)
      have hb : b < 256 := h b (by simp)
      have hc : c < 256 := h c (by simp)
      have h1 : a / 4 < 64 := by omega
      have h2 : (a % 4) * 16 + b / 16 < 64 := by omega
      have h3 : (b % 16) * 4 + c / 64 < 64 := by omega
      have h4 : c % 64 < 64 := by omega
      rw [b64encode, b64decode]
      rw [if_neg (b64Chr_ne_pad _ h3), if_neg (b64Chr_ne_pad _ h4)]
      rw [b64Val_b64Chr _ h1, b64Val_b64Chr _ h2, b64Val_b64Chr _ h3,
        b64Val_b64Chr _ h4]
      rw [ih (fun x hx => h x (by simp [hx]))]
      have d1 : ((a % 4) * 16 + b / 16) / 16 = a % 4 := by omega
      have d2 : ((a % 4) * 16 + b / 16) % 16 = b / 16 := by omega
      have d3 : ((b % 16) * 4 + c / 64) / 4 = b % 16 := by omega
      have d4 : ((b % 16) * 4 + c / 64) % 4 = c / 64 := by omega
      rw [d1, d2, d3, d4]
      simp only [List.cons.injEq]
      refine ⟨by omega, by omega, by omega, trivial⟩
  | case2 a b =>
      have ha : a < 256 := h a (by simp)
      have hb : b < 256 := h b (by simp)
      have h1 : a / 4 < 64 := by omega
      have h2 : (a % 4) * 16 + b / 16 < 64 := by omega
      have h3 : (b % 16) * 4 < 64 := by omega
      rw [b64encode, b64decode]
      rw [if_neg (b64Chr_ne_pad _ h3), if_pos rfl]
      rw [b64Val_b64Chr _ h1, b64Val_b64Chr _ h2, b64Val_b64Chr _ h3]
      have d1 : ((a % 4) * 16 + b / 16) / 16 = a % 4 := by omega
      have d2 : ((a % 4) * 16 + b / 16) % 16 = b / 16 := by omega
      rw [d1, d2]
      simp only [List.cons.injEq]
      refine ⟨by omega, by omega, trivial⟩
  | case3 a =>
      have ha : a < 256 := h a (by simp)
      have h1 : a / 4 < 64 := by omega
      have h2 : (a % 4) * 16 < 64 := by omega
      rw [b64encode, b64decode]
      rw [if_pos rfl]
      rw [b64Val_b64Chr _ h1, b64Val_b64Chr _ h2]
      have d1 : (a % 4) * 16 / 16 = a % 4 := by omega
      rw [d1]
      simp only [List.cons.injEq]
      refine ⟨by omega, trivial⟩
  | case4 => rfl

/-- C10: for every well-formed byte sequence (each value below 256),
`data_to_b64` (the embedding of `data_to_b64`, lines 114-117) followed by
standard base64 decoding yields exactly the original bytes; `data_to_b64`
is a total function on such input. -/
theorem data_to_b64_roundtrip (data : List Nat) (h : ∀ x ∈ data, x < 256) :
    b64decode (data_to_b64 data).data = data := by
  have := b64_roundtrip data h
  simpa [data_to_b64] using this

/-- Witness for C10 at the concrete bytes of the ASCII text "Man". -/
theorem data_to_b64_roundtrip_witness :
    b64decode (data_to_b64 [77, 97, 110]).data = [77, 97, 110] :=
  data_to_b64_roundtrip [77, 97, 110] (by decide)

/-- C1, evaluated at its failing input: with `ignore_bots=False` (bots
requested in the output) the comprehension of line 57,
`[m for m in members if ignore_bots and not is_bot(m)]`, has a constantly
false condition, so every member - bot and non-bot alike - is dropped, and
`df[cols]` then raises `KeyError` on the resulting empty frame (modelled as
`none`).  With `ignore_bots=True` the bot is excluded and the non-bot kept,
as the claim states. -/
theorem bot_filter_inverted_when_bots_requested :
    is_bot robot = true ∧
    is_bot alice = false ∧
    filtered_members [alice, robot] true = [alice] ∧
    filtered_members [alice, robot] false = [] ∧
    df_user_list [alice, robot] "#ignore" false = none := by
  decide

/-- C9, counterexample: a member list in which the optional email key is
absent from every record yields no email column, so the column selection
`df[cols]` of line 75 raises `KeyError` (modelled as `none`): the absence of
an optional field can make normalization fail, contrary to the claim. -/
theorem normalizer_fails_when_column_absent :
    df_user_list [carol] "#ignore" true = none := by
  decide

theorem cleanStr_some_ne_empty (v : Option String) (s : String)
    (h : cleanStr v = some s) : s ≠ "" := by
  rcases v with _ | t
  · simp [cleanStr] at h
  · dsimp [cleanStr] at h
    split at h
    · cases h
    · rename_i ht
      obtain rfl : pyStrip t = s := Option.some.inj h
      exact ht

/-- C2: every row the normalizer outputs (make_useful path of
`df_user_list`) has a title different from the ignore sentinel and a
present, non-empty (after trimming) real_name_normalized. -/
theorem normalized_rows_title_and_real_name (members : List RawMember)
    (ignore_key : String) (ignore_bots : Bool) (rows : List Row)
    (h : df_user_list members ignore_key ignore_bots = some rows) :
    ∀ r ∈ rows, r.title ≠ some ignore_key ∧
      ∃ s, r.real_name_normalized = some s ∧ s ≠ "" := by
  intro r hr
  simp only [df_user_list] at h
  split at h
  · rw [Option.some.injEq] at h
    subst h
    rw [List.mem_filter] at hr
    obtain ⟨hr1, hq⟩ := hr
    rw [List.mem_filter] at hr1
    obtain ⟨hmap, hp⟩ := hr1
    constructor
    · simpa [bne_iff_ne] using hp
    · rw [List.mem_map] at hmap
      obtain ⟨m, hm, rfl⟩ := hmap
      rcases Option.isSome_iff_exists.mp hq with ⟨s, hs⟩
      exact ⟨s, hs, cleanStr_some_ne_empty _ _ (by simpa [makeRow] using hs)⟩
  · exact Option.noConfusion h

/-- Witness for C2 at a concrete one-member list. -/
theorem normalized_rows_title_and_real_name_witness :
    (makeRow true alice).title ≠ some "#ignore" ∧
    ∃ s, (makeRow true alice).real_name_normalized = some s ∧ s ≠ "" :=
  normalized_rows_title_and_real_name [alice] "#ignore" true
    [makeRow true alice] (by decide) (makeRow true alice) (by simp)

/-- C9, amended: provided `df_user_list` succeeds (every selected column
exists in at least one member), a non-bot member that survives the opt-out
and completeness filters is included in the output even when its optional
keys (email, phone, skype, title, avatar image urls) are absent, and those
absent fields stay absent in its row. -/
theorem normalizer_keeps_record_with_absent_fields (members : List RawMember)
    (ignore_key : String) (m : RawMember) (rows : List Row)
    (h : df_user_list members ignore_key true = some rows)
    (hm : m ∈ members) (hb : is_bot m = false)
    (ht : cleanStr m.profile.title ≠ some ignore_key)
    (hr : (cleanStr m.profile.real_name_normalized).isSome = true) :
    makeRow true m ∈ rows ∧
    (m.profile.email = none → (makeRow true m).email = none) ∧
    (m.profile.phone = none → (makeRow true m).phone = none) ∧
    (m.profile.skype = none → (makeRow true m).skype = none) ∧
    (m.profile.title = none → (makeRow true m).title = none) ∧
    (m.profile.image_1024 = none → (makeRow true m).image_1024 = none) ∧
    (m.profile.image_512 = none → (makeRow true m).image_512 = none) ∧
    (m.profile.image_192 = none → (makeRow true m).image_192 = none) := by
  simp only [df_user_list] at h
  split at h
  · rw [Option.some.injEq] at h
    subst h
    refine ⟨?_, ?_, ?_, ?_, ?_, ?_, ?_, ?_⟩
    · apply List.mem_filter.mpr
      refine ⟨?_, by simpa [makeRow] using hr⟩
      apply List.mem_filter.mpr
      refine ⟨?_, by simpa [makeRow, bne_iff_ne] using ht⟩
      exact List.mem_map_of_mem _ (List.mem_filter.mpr ⟨hm, by simp [hb]⟩)
    · intro he
      simp [makeRow, he, cleanStr]
    · intro he
      simp [makeRow, he, cleanStr]
    · intro he
      simp [makeRow, he, cleanStr]
    · intro he
      simp [makeRow, he, cleanStr]
    · intro he
      simp [makeRow, he, cleanStr]
    · intro he
      simp [makeRow, he, cleanStr]
    · intro he
      simp [makeRow, he, cleanStr]
  · exact Option.noConfusion h

/-- Witness for the amended theorem of C9: bob, who has no email, phone, skype,
title or avatar keys, is kept in the output next to alice, with those fields
absent. -/
theorem normalizer_keeps_record_with_absent_fields_witness :
    makeRow true bob ∈ [makeRow true alice, makeRow true bob] ∧
    (bob.profile.email = none → (makeRow true bob).email = none) ∧
    (bob.profile.phone = none → (makeRow true bob).phone = none) ∧
    (bob.profile.skype = none → (makeRow true bob).skype = none) ∧
    (bob.profile.title = none → (makeRow true bob).title = none) ∧
    (bob.profile.image_1024 = none → (makeRow true bob).image_1024 = none) ∧
    (bob.profile.image_512 = none → (makeRow true bob).image_512 = none) ∧
    (bob.profile.image_192 = none → (makeRow true bob).image_192 = none) :=
  normalizer_keeps_record_with_absent_fields [alice, bob] "#ignore" bob
    [makeRow true alice, makeRow true bob] (by decide) (by simp)
    (by decide) (by decide) (by decide)

theorem foldl_binStep_frozen (steps : List WStep) (buf : List Nat)
    (e : String) : steps.foldl binStep (buf, some e) = (buf, some e) := by
  induction steps with
  | nil => rfl
  | cons s t ih =>
      rw [List.foldl_cons]
      exact ih

/-- C3: `write_vcard` opens its output file in binary mode (mode wb, line 135)
but passes `str` data to every write, so the very first write (line 136)
raises `TypeError`: for every combination of field values the run ends with
a pending `TypeError`, the file holds no bytes (created/truncated but
empty), and no call completes normally. -/
theorem write_vcard_binary_mode_type_error
    (first last full email tel skype title pic_url : Option String)
    (http : String → String × List Nat) :
    runBin (write_vcard_steps first last full email tel skype title pic_url
      http) = ([], some "TypeError") := by
  unfold write_vcard_steps runBin
  simp only [List.cons_append, List.nil_append]
  rw [List.foldl_cons]
  exact foldl_binStep_frozen _ _ _

theorem fn_lines_prefix_free (first last full : Option String) :
    ∀ l ∈ fn_lines first last full,
      startsWithS "IMPP" l = false ∧ startsWithS "X-SKYPE" l = false := by
  unfold fn_lines
  split
  · intro l hl
    simp only [List.mem_cons, List.not_mem_nil, or_false] at hl
    rcases hl with rfl | rfl
    · exact ⟨rfl, rfl⟩
    · exact ⟨rfl, rfl⟩
  · intro l hl
    simp at hl

theorem email_lines_prefix_free (email : Option String) :
    ∀ l ∈ email_lines email,
      startsWithS "IMPP" l = false ∧ startsWithS "X-SKYPE" l = false ∧
      startsWithS "FN:" l = false ∧ startsWithS "N:" l = false := by
  unfold email_lines
  split
  · intro l hl
    simp only [List.mem_singleton] at hl
    subst hl
    exact ⟨rfl, rfl, rfl, rfl⟩
  · intro l hl
    simp at hl

theorem tel_lines_prefix_free (tel : Option String) :
    ∀ l ∈ tel_lines tel,
      startsWithS "IMPP" l = false ∧ startsWithS "X-SKYPE" l = false ∧
      startsWithS "FN:" l = false ∧ startsWithS "N:" l = false := by
  unfold tel_lines
  split
  · intro l hl
    simp only [List.mem_singleton] at hl
    subst hl
    exact ⟨rfl, rfl, rfl, rfl⟩
  · intro l hl
    simp at hl

theorem skype_lines_no_fn (skype : Option String) :
    ∀ l ∈ skype_lines skype,
      startsWithS "FN:" l = false ∧ startsWithS "N:" l = false := by
  unfold skype_lines
  split
  · intro l hl
    simp only [List.mem_cons, List.not_mem_nil, or_false] at hl
    rcases hl with rfl | rfl
    · exact ⟨rfl, rfl⟩
    · exact ⟨rfl, rfl⟩
  · intro l hl
    simp at hl

theorem title_lines_prefix_free (title : Option String) :
    ∀ l ∈ title_lines title,
      startsWithS "IMPP" l = false ∧ startsWithS "X-SKYPE" l = false ∧
      startsWithS "FN:" l = false ∧ startsWithS "N:" l = false := by
  unfold title_lines
  split
  · intro l hl
    simp only [List.mem_singleton] at hl
    subst hl
    exact ⟨rfl, rfl, rfl, rfl⟩
  · intro l hl
    simp at hl

theorem photo_end_lines_prefix_free (pic_url : Option String)
    (http : String → String × List Nat) :
    ∀ l ∈ photo_end_lines pic_url http,
      startsWithS "IMPP" l = false ∧ startsWithS "X-SKYPE" l = false ∧
      startsWithS "FN:" l = false ∧ startsWithS "N:" l = false := by
  unfold photo_end_lines
  split
  · intro l hl
    simp only [List.mem_singleton] at hl
    subst hl
    exact ⟨rfl, rfl, rfl, rfl⟩
  · split
    · intro l hl
      simp only [List.mem_cons, List.not_mem_nil, or_false] at hl
      rcases hl with rfl | rfl
      · exact ⟨rfl, rfl, rfl, rfl⟩
      · exact ⟨rfl, rfl, rfl, rfl⟩
    · intro l hl
      simp only [List.mem_singleton] at hl
      subst hl
      exact ⟨rfl, rfl, rfl, rfl⟩

/-- C4: in the card text `write_vcard` serializes (lines 147-154), whenever
skype is present the lines decompose as a block around the IMPP line
directly followed by the X-SKYPE line, with no other line of the card
beginning with `IMPP` or `X-SKYPE` (so the IMPP line is strictly before,
and immediately precedes, the X-SKYPE line); when skype is absent no line
begins with `IMPP` or `X-SKYPE`. -/
theorem impp_line_immediately_precedes_x_skype
    (first last full email tel title pic_url : Option String)
    (http : String → String × List Nat) :
    (∀ s, ∃ A B,
        vcard_lines first last full email tel (some s) title pic_url http =
          A ++ ("IMPP;X-SERVICE-TYPE=Skype;type=HOME;skype:" ++ s) ::
            ("X-SKYPE:" ++ s) :: B ∧
        (∀ l ∈ A, startsWithS "IMPP" l = false ∧
          startsWithS "X-SKYPE" l = false) ∧
        (∀ l ∈ B, startsWithS "IMPP" l = false ∧
          startsWithS "X-SKYPE" l = false)) ∧
    (∀ l ∈ vcard_lines first last full email tel none title pic_url http,
        startsWithS "IMPP" l = false ∧ startsWithS "X-SKYPE" l = false) := by
  constructor
  · intro s
    refine ⟨"BEGIN:VCARD" :: "VERSION:3.0" :: (fn_lines first last full ++
        email_lines email ++ tel_lines tel),
      title_lines title ++ photo_end_lines pic_url http, ?_, ?_, ?_⟩
    · simp [vcard_lines, skype_lines, List.append_assoc]
    · intro l hl
      simp only [List.mem_cons, List.mem_append] at hl
      rcases hl with rfl | rfl | (hf | he) | ht
      · exact ⟨rfl, rfl⟩
      · exact ⟨rfl, rfl⟩
      · exact fn_lines_prefix_free first last full l hf
      · have h := email_lines_prefix_free email l he
        exact ⟨h.1, h.2.1⟩
      · have h := tel_lines_prefix_free tel l ht
        exact ⟨h.1, h.2.1⟩
    · intro l hl
      simp only [List.mem_append] at hl
      rcases hl with ht | hp
      · have h := title_lines_prefix_free title l ht
        exact ⟨h.1, h.2.1⟩
      · have h := photo_end_lines_prefix_free pic_url http l hp
        exact ⟨h.1, h.2.1⟩
  · intro l hl
    simp only [vcard_lines, skype_lines, List.nil_append, List.append_nil,
      List.cons_append, List.mem_cons, List.mem_append] at hl
    rcases hl with rfl | rfl | ((((hf | he) | ht) | hti) | hp)
    · exact ⟨rfl, rfl⟩
    · exact ⟨rfl, rfl⟩
    · exact fn_lines_prefix_free first last full l hf
    · have h := email_lines_prefix_free email l he
      exact ⟨h.1, h.2.1⟩
    · have h := tel_lines_prefix_free tel l ht
      exact ⟨h.1, h.2.1⟩
    · have h := title_lines_prefix_free title l hti
      exact ⟨h.1, h.2.1⟩
    · have h := photo_end_lines_prefix_free pic_url http l hp
      exact ⟨h.1, h.2.1⟩

/-- Witness for C4 at a concrete card with every text field present. -/
theorem impp_line_immediately_precedes_x_skype_witness :
    ∃ A B,
      vcard_lines (some "Alice") (some "Smith") (some "Alice Smith")
          (some "alice@example.com") (some "555-0100") (some "alice.s")
          (some "Engineer") none httpStub =
        A ++ ("IMPP;X-SERVICE-TYPE=Skype;type=HOME;skype:" ++ "alice.s") ::
          ("X-SKYPE:" ++ "alice.s") :: B ∧
      (∀ l ∈ A, startsWithS "IMPP" l = false ∧
        startsWithS "X-SKYPE" l = false) ∧
      (∀ l ∈ B, startsWithS "IMPP" l = false ∧
        startsWithS "X-SKYPE" l = false) :=
  (impp_line_immediately_precedes_x_skype (some "Alice") (some "Smith")
    (some "Alice Smith") (some "alice@example.com") (some "555-0100")
    (some "Engineer") none httpStub).1 "alice.s"

/-- C7, counterexample: with `full` present but `first` absent the card
contains no `FN:` line at all (the write of lines 138-139 is guarded by
first AND last AND full), refuting "the FN line is emitted whenever full is
present". -/
theorem fn_requires_all_names_counterexample :
    vcard_lines none (some "Zed") (some "Bob Zed") none none none none none
      httpStub = ["BEGIN:VCARD", "VERSION:3.0", "END:VCARD"] := by
  decide

theorem fn_lines_eq_nil (first last full : Option String)
    (h : first = none ∨ last = none ∨ full = none) :
    fn_lines first last full = [] := by
  unfold fn_lines
  split
  · rcases h with h | h | h <;> simp_all
  · rfl

/-- C7, amended: the `FN:` and `N:` lines are emitted together, exactly when
first, last and full are all present (they come from the single write of
lines 138-139); when any of the three is absent the card contains neither an
`FN:` line nor an `N:` line, even if `full` alone is present. -/
theorem fn_n_lines_emitted_together
    (first last full email tel skype title pic_url : Option String)
    (http : String → String × List Nat) :
    (∀ fi la fu, first = some fi → last = some la → full = some fu →
        vcard_lines first last full email tel skype title pic_url http =
          "BEGIN:VCARD" :: "VERSION:3.0" :: ("FN:" ++ fu) ::
            ("N:" ++ la ++ ";" ++ fi ++ ";;;") ::
            (email_lines email ++ tel_lines tel ++ skype_lines skype ++
              title_lines title ++ photo_end_lines pic_url http)) ∧
    ((first = none ∨ last = none ∨ full = none) →
      ∀ l ∈ vcard_lines first last full email tel skype title pic_url http,
        startsWithS "FN:" l = false ∧ startsWithS "N:" l = false) := by
  constructor
  · intro fi la fu h1 h2 h3
    subst h1
    subst h2
    subst h3
    simp [vcard_lines, fn_lines, List.append_assoc]
  · intro h l hl
    simp only [vcard_lines, fn_lines_eq_nil first last full h,
      List.nil_append, List.append_nil, List.cons_append, List.mem_cons,
      List.mem_append] at hl
    rcases hl with rfl | rfl | ((((he | ht) | hs) | hti) | hp)
    · exact ⟨rfl, rfl⟩
    · exact ⟨rfl, rfl⟩
    · have h2 := email_lines_prefix_free email l he
      exact ⟨h2.2.2.1, h2.2.2.2⟩
    · have h2 := tel_lines_prefix_free tel l ht
      exact ⟨h2.2.2.1, h2.2.2.2⟩
    · exact skype_lines_no_fn skype l hs
    · have h2 := title_lines_prefix_free title l hti
      exact ⟨h2.2.2.1, h2.2.2.2⟩
    · have h2 := photo_end_lines_prefix_free pic_url http l hp
      exact ⟨h2.2.2.1, h2.2.2.2⟩

/-- Witness for the amended theorem of C7 at a concrete card with all three name
fields present. -/
theorem fn_n_lines_emitted_together_witness :
    vcard_lines (some "Ada") (some "Lovelace") (some "Ada Lovelace") none
        none none none none httpStub =
      "BEGIN:VCARD" :: "VERSION:3.0" :: ("FN:" ++ "Ada Lovelace") ::
        ("N:" ++ "Lovelace" ++ ";" ++ "Ada" ++ ";;;") ::
        (email_lines none ++ tel_lines none ++ skype_lines none ++
          title_lines none ++ photo_end_lines none httpStub) :=
  (fn_n_lines_emitted_together (some "Ada") (some "Lovelace")
    (some "Ada Lovelace") none none none none none httpStub).1
    "Ada" "Lovelace" "Ada Lovelace" rfl rfl rfl

theorem rfindIdx_drop (c : Char) (l : List Char) :
    ∀ i, rfindIdx c l = some i → ∃ t, l.drop i = c :: t := by
  induction l with
  | nil =>
      intro i h
      simp [rfindIdx] at h
  | cons a t ih =>
      intro i h
      cases hrec : rfindIdx c t with
      | some j =>
          have h2 : rfindIdx c (a :: t) = some (j + 1) := by
            rw [rfindIdx, hrec]
          rw [h2] at h
          obtain rfl : j + 1 = i := Option.some.inj h
          exact ih j hrec
      | none =>
          have h2 : rfindIdx c (a :: t) = if a = c then some 0 else none := by
            rw [rfindIdx, hrec]
          rw [h2] at h
          split at h
          · rename_i hac
            obtain rfl : (0 : Nat) = i := Option.some.inj h
            exact ⟨t, by simp [hac]⟩
          · exact Option.noConfusion h

theorem splitext_ext_starts_dot (p : String) (h : splitext_ext p ≠ "") :
    startsWithS "." (splitext_ext p) = true := by
  cases hd : rfindIdx '.' p.data with
  | none =>
      have he : splitext_ext p = "" := by
        unfold splitext_ext
        rw [hd]
      exact absurd he h
  | some d =>
      have he : splitext_ext p =
          splitext_ext_at p.data d (splitext_sep p.data) := by
        unfold splitext_ext
        rw [hd]
      rw [he] at h ⊢
      unfold splitext_ext_at at h ⊢
      obtain ⟨t, ht⟩ := rfindIdx_drop '.' p.data d hd
      by_cases h1 : splitext_sep p.data ≤ d
      · rw [if_pos h1] at h ⊢
        by_cases h2 : ((p.data.drop (splitext_sep p.data)).take
            (d - splitext_sep p.data)).any (fun ch => ch != '.') = true
        · rw [if_pos h2, ht]
          simp [startsWithS, List.isPrefixOf]
        · rw [if_neg h2] at h
          exact absurd rfl h
      · rw [if_neg h1] at h
        exact absurd rfl h

theorem startsWithS_dot_pyUpper (s : String)
    (h : startsWithS "." s = true) : startsWithS "." (pyUpper s) = true := by
  unfold startsWithS at h ⊢
  unfold pyUpper
  cases hs : s.data with
  | nil =>
      rw [hs] at h
      exact absurd h (by decide)
  | cons a t =>
      rw [hs] at h
      have ha : a = '.' := by
        simp [List.isPrefixOf] at h
        exact h.symm
      subst ha
      simp [List.isPrefixOf]

/-- C6, counterexample: for a url ending in `.png` the TYPE token the code
computes is `.PNG`, the uppercased extension with the leading dot kept
(`os.path.splitext` returns the extension dot included and line 166 only
uppercases it), not `PNG` as the claim states. -/
theorem photo_ext_keeps_leading_dot_counterexample :
    photo_ext "https://files.example.com/alice.png" = ".PNG" ∧
    (".PNG" : String) ≠ "PNG" := by
  decide

/-- C6, amended: `.jpg` and `.jpeg` extensions yield the TYPE token `JPEG`;
any other extension yields the extension uppercased with the leading dot
KEPT (so a nonempty non-jpeg extension always produces a token beginning
with a dot, e.g. `.png` yields `.PNG`). -/
theorem photo_ext_mapping (u : String) :
    (splitext_ext u = ".jpg" ∨ splitext_ext u = ".jpeg" →
      photo_ext u = "JPEG") ∧
    (splitext_ext u ≠ ".jpg" → splitext_ext u ≠ ".jpeg" →
      photo_ext u = pyUpper (splitext_ext u)) ∧
    (splitext_ext u ≠ ".jpg" → splitext_ext u ≠ ".jpeg" →
      splitext_ext u ≠ "" → startsWithS "." (photo_ext u) = true) := by
  refine ⟨?_, ?_, ?_⟩
  · intro h
    rcases h with h | h <;> simp [photo_ext, h]
  · intro h1 h2
    simp [photo_ext, beq_iff_eq, h1, h2]
  · intro h1 h2 h3
    have hu : photo_ext u = pyUpper (splitext_ext u) := by
      simp [photo_ext, beq_iff_eq, h1, h2]
    rw [hu]
    exact startsWithS_dot_pyUpper _ (splitext_ext_starts_dot u h3)

/-- Witness for the amended theorem of C6: a `.jpg` url yields `JPEG` and a
`.png` url yields the uppercased dotted extension. -/
theorem photo_ext_mapping_witness :
    photo_ext "https://files.example.com/a.jpg" = "JPEG" ∧
    photo_ext "https://files.example.com/alice.png" =
      pyUpper (splitext_ext "https://files.example.com/alice.png") :=
  ⟨(photo_ext_mapping "https://files.example.com/a.jpg").1
      (Or.inl (by decide)),
    (photo_ext_mapping "https://files.example.com/alice.png").2.1
      (by decide) (by decide)⟩

theorem skip_avatar_eq (url : String) :
    skip_avatar url = pyIn avatarMarker url := by
  unfold skip_avatar
  split <;> simp_all

/-- C5, settled at its failing input: `url_to_data` does return absent for
every url containing the placeholder marker, before or after redirects
(first two conjuncts); but `write_vcard` guards the PHOTO block only on
`pd.notnull(pic_url)` (line 159), so for a present placeholder url the run
still begins a PHOTO line (`PHOTO;ENCODING=b;TYPE=` is written at line 161)
and then fails evaluating `img_to_b64(pic_url)` at line 167 - the card for a
record whose avatar fetch is absent is not a card without a PHOTO line. -/
theorem placeholder_avatar_absent_but_photo_started :
    (∀ (http : String → String × List Nat) (url : String),
        pyIn avatarMarker url = true → url_to_data http url = none) ∧
    (∀ (http : String → String × List Nat) (url : String),
        pyIn avatarMarker (http url).1 = true → url_to_data http url = none) ∧
    runText (write_vcard_steps none none none none none none none
        (some defaultAvatarUrl) httpStub) =
      ("BEGIN:VCARD\nVERSION:3.0\nPHOTO;ENCODING=b;TYPE=",
        some "TypeError") := by
  refine ⟨?_, ?_, ?_⟩
  · intro http url h
    simp [url_to_data, skip_avatar_eq, h]
  · intro http url h
    cases hb : skip_avatar url with
    | true => simp [url_to_data, hb]
    | false => simp [url_to_data, hb, skip_avatar_eq, h]
  · decide

/-- Witness for C5 at the concrete default-avatar url. -/
theorem placeholder_avatar_absent_but_photo_started_witness :
    url_to_data httpStub defaultAvatarUrl = none :=
  placeholder_avatar_absent_but_photo_started.1 httpStub defaultAvatarUrl
    (by decide)

theorem digitChar_isDigit_fin :
    ∀ k : Fin 10, (Nat.digitChar k.val).isDigit = true := by
  decide

theorem toDigitsCore_digits (fuel : Nat) :
    ∀ (n : Nat) (ds : List Char), (∀ c ∈ ds, c.isDigit = true) →
      ∀ c ∈ Nat.toDigitsCore 10 fuel n ds, c.isDigit = true := by
  induction fuel with
  | zero =>
      intro n ds hds c hc
      simp only [Nat.toDigitsCore] at hc
      exact hds c hc
  | succ f ih =>
      intro n ds hds c hc
      simp only [Nat.toDigitsCore] at hc
      by_cases hn : n / 10 = 0
      · rw [if_pos hn] at hc
        rcases List.mem_cons.mp hc with rfl | hmem
        · exact digitChar_isDigit_fin ⟨n % 10, by omega⟩
        · exact hds c hmem
      · rw [if_neg hn] at hc
        refine ih (n / 10) (Nat.digitChar (n % 10) :: ds) ?_ c hc
        intro c2 hc2
        rcases List.mem_cons.mp hc2 with rfl | hmem
        · exact digitChar_isDigit_fin ⟨n % 10, by omega⟩
        · exact hds c2 hmem

theorem toDigitsCore_length_ge (fuel : Nat) :
    ∀ (n : Nat) (ds : List Char),
      ds.length ≤ (Nat.toDigitsCore 10 fuel n ds).length := by
  induction fuel with
  | zero =>
      intro n ds
      simp [Nat.toDigitsCore]
  | succ f ih =>
      intro n ds
      simp only [Nat.toDigitsCore]
      by_cases hn : n / 10 = 0
      · rw [if_pos hn]
        simp
      · rw [if_neg hn]
        have h1 := ih (n / 10) (Nat.digitChar (n % 10) :: ds)
        simp only [List.length_cons] at h1
        omega

theorem toDigits_ne_nil (y : Nat) : Nat.toDigits 10 y ≠ [] := by
  unfold Nat.toDigits
  simp only [Nat.toDigitsCore]
  by_cases hn : y / 10 = 0
  · rw [if_pos hn]
    simp
  · rw [if_neg hn]
    intro h
    have h1 := toDigitsCore_length_ge y (y / 10) [Nat.digitChar (y % 10)]
    rw [h] at h1
    simp at h1

theorem toDigits_digits (y : Nat) :
    ∀ c ∈ Nat.toDigits 10 y, c.isDigit = true := by
  unfold Nat.toDigits
  exact toDigitsCore_digits (y + 1) y [] (by simp)

theorem head_digit_aux (k : Nat) (l rest : List Char) (hl : l ≠ [])
    (hdl : ∀ c ∈ l, c.isDigit = true) :
    ∃ c t, List.replicate k '0' ++ (l ++ rest) = c :: t ∧
      c.isDigit = true := by
  cases k with
  | zero =>
      cases l with
      | nil => exact absurd rfl hl
      | cons c t2 => exact ⟨c, t2 ++ rest, by simp, hdl c (by simp)⟩
  | succ k2 =>
      exact ⟨'0', List.replicate k2 '0' ++ (l ++ rest),
        by simp [List.replicate_succ], by decide⟩

theorem slash_beq_digit (c : Char) (h : c.isDigit = true) :
    (('/' : Char) == c) = false := by
  by_cases hc : ('/' : Char) = c
  · rw [← hc] at h
    exact absurd h (by decide)
  · exact beq_eq_false_iff_ne.mpr hc

theorem strftime_json_not_abs (y m d : Nat) :
    startsWithS "/" (strftimeDate y m d ++ ".json") = false := by
  obtain ⟨rest, hshape⟩ : ∃ rest, (strftimeDate y m d ++ ".json").data =
      List.replicate (4 - (Nat.toDigits 10 y).length) '0' ++
        (Nat.toDigits 10 y ++ rest) :=
    ⟨_, by
      simp [strftimeDate, padNum, String.data_append, List.append_assoc]
      rfl⟩
  obtain ⟨c, t, hct, hdig⟩ :=
    head_digit_aux (4 - (Nat.toDigits 10 y).length) (Nat.toDigits 10 y) rest
      (toDigits_ne_nil y) (toDigits_digits y)
  unfold startsWithS
  rw [hshape, hct]
  have h1 : ("/").data = ['/'] := rfl
  rw [h1]
  simp [List.isPrefixOf, slash_beq_digit c hdig]

theorem pyJoin_eq (a b : String) (ha1 : a ≠ "")
    (ha2 : a.data.getLast? ≠ some '/') (hb : startsWithS "/" b = false) :
    pyJoin a b = a ++ "/" ++ b := by
  simp [pyJoin, hb, beq_eq_false_iff_ne.mpr ha1, beq_eq_false_iff_ne.mpr ha2]

/-- C8: `cached_user_list` computes the daily cache path as
`<cacheFolder>/<YYYY-MM-DD>.json` (for a folder that is nonempty and has no
trailing slash; the current UTC date is supplied as explicit year, month and
day), returns `None` when that file does not exist, and returns the parsed
content when it does.  The embedding takes only a filesystem and a
`json.loads` parameter - no network access occurs in `cached_user_list`. -/
theorem cached_user_list_path_and_absence {J : Type}
    (fs : String → Option String) (loads : String → J) (folder : String)
    (y m d : Nat) (h1 : folder ≠ "")
    (h2 : folder.data.getLast? ≠ some '/') :
    cachefileName (some folder) (strftimeDate y m d) =
      folder ++ "/" ++ (strftimeDate y m d ++ ".json") ∧
    (fs (folder ++ "/" ++ (strftimeDate y m d ++ ".json")) = none →
      cached_user_list fs loads (some folder) (strftimeDate y m d) =
        none) ∧
    (∀ content,
      fs (folder ++ "/" ++ (strftimeDate y m d ++ ".json")) =
          some content →
      cached_user_list fs loads (some folder) (strftimeDate y m d) =
        some (loads content)) := by
  have hpath : cachefileName (some folder) (strftimeDate y m d) =
      folder ++ "/" ++ (strftimeDate y m d ++ ".json") := by
    unfold cachefileName
    exact pyJoin_eq folder _ h1 h2 (strftime_json_not_abs y m d)
  refine ⟨hpath, ?_, ?_⟩
  · intro hfs
    unfold cached_user_list
    rw [hpath, hfs]
  · intro content hfs
    unfold cached_user_list
    rw [hpath, hfs]

/-- Witness for C8 at a concrete folder, date and (empty) filesystem. -/
theorem cached_user_list_path_and_absence_witness :
    cachefileName (some "cache") (strftimeDate 2026 10 12) =
      "cache" ++ "/" ++ (strftimeDate 2026 10 12 ++ ".json") ∧
    cached_user_list (fun _ => (none : Option String)) (fun s => s)
      (some "cache") (strftimeDate 2026 10 12) = none := by
  have h := cached_user_list_path_and_absence
    (fun _ => (none : Option String)) (fun s => s) "cache" 2026 10 12
    (by decide) (by decide)
  exact ⟨h.1, h.2.1 rfl⟩



/-- Grounding of `vcard_lines` in the executable write sequence, full case:
for a card with every field present and an avatar that yields bytes, the
text a text-mode run of the write steps produces is exactly the
newline-terminated join of `vcard_lines`, with no pending exception. -/
theorem vcard_lines_ground_full :
    runText (write_vcard_steps (some "Fi") (some "La") (some "Fu")
        (some "e@x.io") (some "555") (some "sk") (some "Ti")
        (some "http://files.example.com/p.png") (fun u => (u, [77, 97]))) =
      (String.join ((vcard_lines (some "Fi") (some "La") (some "Fu")
        (some "e@x.io") (some "555") (some "sk") (some "Ti")
        (some "http://files.example.com/p.png")
        (fun u => (u, [77, 97]))).map (fun l => l ++ "\n")), none) := by
  decide

/-- Grounding of `vcard_lines`, minimal case: every optional field absent. -/
theorem vcard_lines_ground_minimal :
    runText (write_vcard_steps none none none none none none none none
        httpStub) =
      (String.join ((vcard_lines none none none none none none none none
        httpStub).map (fun l => l ++ "\n")), none) := by
  decide

/-- Grounding of `vcard_lines`, aborted case: with a placeholder avatar url
the run stops inside the PHOTO block, and the emitted text is the lines
joined with newlines except that the final `PHOTO;ENCODING=b;TYPE=` line is
left unterminated, with a pending exception. -/
theorem vcard_lines_ground_aborted :
    runText (write_vcard_steps none none none none none (some "sk") none
        (some defaultAvatarUrl) httpStub) =
      (String.join ((vcard_lines none none none none none (some "sk") none
          (some defaultAvatarUrl) httpStub).dropLast.map (fun l => l ++ "\n"))
        ++ "PHOTO;ENCODING=b;TYPE=", some "TypeError") ∧
    (vcard_lines none none none none none (some "sk") none
        (some defaultAvatarUrl) httpStub).getLast? =
      some "PHOTO;ENCODING=b;TYPE=" := by
  constructor
  · decide
  · decide
